import Mathlib

/-!
Verification of the derived-ledger reconciliation engine of the
ledger-beacon-insights repository.

The data model and operations below are a shallow embedding of the
TypeScript source:
  * src/hooks/useFinanceData.tsx   (loan metrics, store operations)
  * src/components/EnhancedBulkCollection.tsx  (bulk/custom collection form,
    and the unified transaction-history ledger builder)
  * the Dashboard metrics (near-to-closing set)

Modelling conventions:
  * Monetary amounts are rationals (the source uses JS numbers fed by
    parseFloat; exact rational arithmetic models the arithmetic the code
    performs on them).
  * Calendar dates are integers (day numbers).  The source stores dates as
    plain YYYY-MM-DD strings and converts them with the Date constructor,
    which yields midnight of that day; the ledger builder then shifts loan
    rows by +1 hour and collection rows by +2 hours, so the full date-time
    sort key is modelled in hours as day*24 + offset.
  * JS truthiness tests on strings (for example the filter loan.id && ...)
    are modelled as disequality with the empty string; truthiness of a
    number as disequality with 0.
  * React state updates are modelled as sequential explicit state passing:
    an operation that calls setCollections and then setLoans is a function
    from the store state to the new store state, with the second update
    reading the result of the first.
  * Wall-clock inputs (Date.now, today) are explicit parameters.
-/

/-- Loan status as in the Loan interface of useFinanceData. -/
inductive LoanStatus where
  | Ongoing
  | Completed
  | Disabled
deriving DecidableEq

/-- The Loan record of useFinanceData.  The last five fields are the derived
ones (recomputed by calculateLoanMetrics); isDisabled models the optional
boolean flag, with the missing value read as false. -/
structure Loan where
  id : String
  customerName : String
  date : ℤ
  loanAmount : ℚ
  deduction : ℚ
  netGiven : ℚ
  dailyPay : ℚ
  days : ℚ
  totalToReceive : ℚ
  collected : ℚ
  balance : ℚ
  status : LoanStatus
  profit : ℚ
  isDisabled : Bool
deriving DecidableEq

/-- The Collection record of useFinanceData. -/
structure Collection where
  id : String
  date : ℤ
  loanId : String
  customer : String
  amountPaid : ℚ
  collectedBy : String
  remarks : String
deriving DecidableEq

/-- The Fund record of useFinanceData. -/
structure Fund where
  id : String
  date : ℤ
  description : String
  inflow : ℚ
  outflow : ℚ
  balance : ℚ
deriving DecidableEq

/-- The mutable store of the useFinanceData hook (funds are carried
separately by the ledger builder and are untouched by the loan/collection
operations modelled here). -/
structure FinState where
  loans : List Loan
  collections : List Collection
deriving DecidableEq

/-- collections.filter(c => c.loanId === loan.id).reduce((sum, c) => sum + (c.amountPaid || 0), 0)
from calculateLoanMetrics. -/
def collectedAmount (collections : List Collection) (loanId : String) : ℚ :=
  (collections.filter (fun c => decide (c.loanId = loanId))).foldl
    (fun sum c => sum + c.amountPaid) 0

/-- calculateLoanMetrics of useFinanceData.tsx (lines 91-120, the current
revision): collected is summed from matching collections, balance is
clamped at zero, status is Disabled / Completed / Ongoing, and profit is
the expected total profit deduction + (loanAmount - netGiven). -/
def calculateLoanMetrics (collections : List Collection) (loan : Loan) : Loan :=
  let collected := collectedAmount collections loan.id
  let balance := max 0 (loan.loanAmount - collected)
  let status :=
    if loan.isDisabled then LoanStatus.Disabled
    else if balance ≤ 0 then LoanStatus.Completed else LoanStatus.Ongoing
  let expectedTotalProfit := loan.deduction + (loan.loanAmount - loan.netGiven)
  { loan with
      totalToReceive := loan.loanAmount
      collected := collected
      balance := balance
      status := status
      profit := expectedTotalProfit }

/-- A Partial<Loan> update object: every field optionally overridden. -/
structure LoanUpdates where
  id : Option String := none
  customerName : Option String := none
  date : Option ℤ := none
  loanAmount : Option ℚ := none
  deduction : Option ℚ := none
  netGiven : Option ℚ := none
  dailyPay : Option ℚ := none
  days : Option ℚ := none
  totalToReceive : Option ℚ := none
  collected : Option ℚ := none
  balance : Option ℚ := none
  status : Option LoanStatus := none
  profit : Option ℚ := none
  isDisabled : Option Bool := none

/-- The spread { ...loan, ...updates } of updateLoan. -/
def applyUpdates (loan : Loan) (u : LoanUpdates) : Loan where
  id := u.id.getD loan.id
  customerName := u.customerName.getD loan.customerName
  date := u.date.getD loan.date
  loanAmount := u.loanAmount.getD loan.loanAmount
  deduction := u.deduction.getD loan.deduction
  netGiven := u.netGiven.getD loan.netGiven
  dailyPay := u.dailyPay.getD loan.dailyPay
  days := u.days.getD loan.days
  totalToReceive := u.totalToReceive.getD loan.totalToReceive
  collected := u.collected.getD loan.collected
  balance := u.balance.getD loan.balance
  status := u.status.getD loan.status
  profit := u.profit.getD loan.profit
  isDisabled := u.isDisabled.getD loan.isDisabled

/-- updateLoan of useFinanceData.tsx: the matching loan is merged with the
updates and re-derived; all other loans are untouched. -/
def updateLoan (st : FinState) (loanId : String) (u : LoanUpdates) : FinState :=
  { st with
      loans := st.loans.map (fun loan =>
        if loan.id = loanId then calculateLoanMetrics st.collections (applyUpdates loan u)
        else loan) }

/-- deleteLoan of useFinanceData.tsx: removes the loan and every collection
whose loanId matches. -/
def deleteLoan (st : FinState) (loanId : String) : FinState where
  loans := st.loans.filter (fun loan => decide (¬ loan.id = loanId))
  collections := st.collections.filter (fun c => decide (¬ c.loanId = loanId))

/-- toggleLoanStatus of useFinanceData.tsx: flips isDisabled on the matching
loan and re-derives it. -/
def toggleLoanStatus (st : FinState) (loanId : String) : FinState :=
  { st with
      loans := st.loans.map (fun loan =>
        if loan.id = loanId then
          calculateLoanMetrics st.collections { loan with isDisabled := !loan.isDisabled }
        else loan) }

/-- addCollection of useFinanceData.tsx: appends the collection and
re-derives the metrics of the loan it references (sequential state
semantics: the re-derivation sees the updated collection set). -/
def addCollection (st : FinState) (c : Collection) : FinState where
  loans := st.loans.map (fun loan =>
    if loan.id = c.loanId then calculateLoanMetrics (st.collections ++ [c]) loan
    else loan)
  collections := st.collections ++ [c]

/-- addBulkCollection of useFinanceData.tsx (lines 165-183): looks up the
loan, silently returns when it is absent or its stored balance is ≤ 0, and
otherwise inserts a single synthesized collection for the full balance.
now is Date.now() and today the current calendar date. -/
def addBulkCollection (st : FinState) (loanId collectedBy remarks : String)
    (now : ℕ) (today : ℤ) : FinState :=
  match st.loans.find? (fun l => decide (l.id = loanId)) with
  | none => st
  | some loan =>
    if loan.balance ≤ 0 then st
    else
      addCollection st
        { id := "bulk-" ++ toString now
          date := today
          loanId := loanId
          customer := loan.customerName
          amountPaid := loan.balance
          collectedBy := if collectedBy = "" then "System" else collectedBy
          remarks := if remarks = "" then "100 days bulk collection" else remarks }

/-- The two collection types of the EnhancedBulkCollection form. -/
inductive CollectionMode where
  | hundredDays
  | custom
deriving DecidableEq

/-- Outcome of the EnhancedBulkCollection submit handler: a destructive
toast (failure with its description) or the success toast. -/
inductive SubmitOutcome where
  | success
  | failure (description : String)
deriving DecidableEq

/-- handleSubmit of EnhancedBulkCollection.tsx (lines 45-107).  In 100-days
mode it delegates to addBulkCollection and then unconditionally reports
success; in custom mode it validates the amount against the selected
loan's balance (0 when no loan matches) before inserting.  The custom
remark default abstracts the INR-formatted string of the source. -/
def handleSubmitBulk (st : FinState) (loanId : String) (mode : CollectionMode)
    (customAmount : ℚ) (collectedBy remarks : String) (now : ℕ) (today : ℤ) :
    FinState × SubmitOutcome :=
  if loanId = "" then (st, SubmitOutcome.failure "Please select a loan")
  else
    match mode with
    | CollectionMode.hundredDays =>
      (addBulkCollection st loanId collectedBy
        (if remarks = "" then "100 days bulk collection" else remarks) now today,
       SubmitOutcome.success)
    | CollectionMode.custom =>
      let maxCollectionAmount :=
        match st.loans.find? (fun l => decide (l.id = loanId)) with
        | some l => l.balance
        | none => 0
      if customAmount ≤ 0 then
        (st, SubmitOutcome.failure "Please enter a valid amount")
      else if maxCollectionAmount < customAmount then
        (st, SubmitOutcome.failure "Amount cannot exceed balance")
      else
        (addCollection st
          { id := "custom-" ++ toString now
            date := today
            loanId := loanId
            customer :=
              match st.loans.find? (fun l => decide (l.id = loanId)) with
              | some l => l.customerName
              | none => ""
            amountPaid := customAmount
            collectedBy := if collectedBy = "" then "System" else collectedBy
            remarks := if remarks = "" then "Custom collection" else remarks },
         SubmitOutcome.success)

/-- Row origin types of the unified transaction history. -/
inductive RowType where
  | opening
  | manual
  | loan
  | collection
deriving DecidableEq

/-- One TransactionRow of the ledger builder.  time is the full date-time
sort key in hours (day*24 plus the hour offset the source adds with
setHours). -/
structure LedgerRow where
  id : String
  date : ℤ
  time : ℤ
  description : String
  inflow : ℚ
  outflow : ℚ
  balance : ℚ
  type : RowType
deriving DecidableEq

/-- The tie-break priority map of the ledger sort:
opening(0) < manual(1) < loan(2) < collection(3). -/
def tier : RowType → ℕ
  | RowType.opening => 0
  | RowType.manual => 1
  | RowType.loan => 2
  | RowType.collection => 3

/-- The fund row pushed by the ledger builder: stored balance copied in,
type opening exactly when the description is the Initial Balance
sentinel, sort key at midnight of the fund date. -/
def fundLedgerRow (f : Fund) : LedgerRow where
  id := f.id
  date := f.date
  time := f.date * 24
  description := f.description
  inflow := f.inflow
  outflow := f.outflow
  balance := f.balance
  type := if f.description = "Initial Balance" then RowType.opening else RowType.manual

/-- The loan-disbursement row: inflow 0, outflow netGiven, sort key shifted
+1 hour past midnight of the issue date. -/
def loanLedgerRow (l : Loan) : LedgerRow where
  id := "loan-" ++ l.id
  date := l.date
  time := l.date * 24 + 1
  description := "Loan disbursed to " ++ l.customerName
  inflow := 0
  outflow := l.netGiven
  balance := 0
  type := RowType.loan

/-- Sum of amountPaid over the (amountPaid-truthy) collections of one
calendar date, as accumulated per group by the ledger builder. -/
def collectionDayTotal (collections : List Collection) (d : ℤ) : ℚ :=
  (collections.filter (fun c => decide (¬ c.amountPaid = 0 ∧ c.date = d))).foldl
    (fun sum c => sum + c.amountPaid) 0

/-- First occurrence of each element, preserving order: the iteration
order of the Map the source groups collections into. -/
def firstOccur : List ℤ → List ℤ
  | [] => []
  | d :: rest => d :: firstOccur (rest.filter (fun x => decide (¬ x = d)))
termination_by l => l.length
decreasing_by
  exact Nat.lt_succ_of_le (List.length_filter_le _ _)

/-- The distinct dates of the grouped collections, in grouping order. -/
def collectionDates (collections : List Collection) : List ℤ :=
  firstOccur ((collections.filter (fun c => decide (¬ c.amountPaid = 0))).map
    (fun c => c.date))

/-- The daily-collection rows: one per distinct date with positive total,
inflow the day total, outflow 0, sort key shifted +2 hours. -/
def collectionLedgerRows (collections : List Collection) : List LedgerRow :=
  (collectionDates collections).filterMap (fun d =>
    if 0 < collectionDayTotal collections d then
      some
        { id := "collection-" ++ toString d
          date := d
          time := d * 24 + 2
          description := "Collections received"
          inflow := collectionDayTotal collections d
          outflow := 0
          balance := 0
          type := RowType.collection }
    else none)

/-- The comparator of the ledger sort: ascending full date-time, ties
broken by the priority tier. -/
def ledgerLE (a b : LedgerRow) : Prop :=
  a.time < b.time ∨ (a.time = b.time ∧ tier a.type ≤ tier b.type)

instance : DecidableRel ledgerLE := fun a b => by
  unfold ledgerLE; infer_instance

instance : IsTotal LedgerRow ledgerLE where
  total a b := by unfold ledgerLE; omega

instance : IsTrans LedgerRow ledgerLE where
  trans a b c := by unfold ledgerLE; omega

/-- The unsorted row list: fund rows (only funds with a truthy id), loan
rows (only loans with a truthy id that are not disabled), grouped
collection rows. -/
def rawLedgerRows (funds : List Fund) (loans : List Loan)
    (collections : List Collection) : List LedgerRow :=
  (funds.filter (fun f => decide (¬ f.id = ""))).map fundLedgerRow
    ++ (loans.filter (fun l => decide (¬ l.id = "" ∧ l.isDisabled = false))).map loanLedgerRow
    ++ collectionLedgerRows collections

/-- The running-balance pass: manual and opening rows keep their stored
balance and reset the accumulator to it; loan and collection rows
increment the accumulator by inflow - outflow and take the result as
their balance. -/
def balancePass : ℚ → List LedgerRow → List LedgerRow
  | _, [] => []
  | acc, r :: rest =>
    if r.type = RowType.manual ∨ r.type = RowType.opening then
      r :: balancePass r.balance rest
    else
      (fun b => { r with balance := b } :: balancePass b rest) (acc + r.inflow - r.outflow)

/-- transactionHistory of EnhancedBulkCollection.tsx (the unified ledger
builder): build all rows, sort by date-time with the priority tie-break,
then run the balance pass from 0. -/
def buildLedger (funds : List Fund) (loans : List Loan)
    (collections : List Collection) : List LedgerRow :=
  balancePass 0 (List.insertionSort ledgerLE (rawLedgerRows funds loans collections))

/-- Days remaining of the Dashboard near-to-closing check:
Math.ceil(max(0, loanAmount - collected) / dailyPay).  Rational division
by a zero dailyPay yields 0 here, where the source produces Infinity or
NaN; both fail the strict positivity test below, so membership agrees. -/
def remainingDaysOf (loan : Loan) : ℤ :=
  ⌈max 0 (loan.loanAmount - loan.collected) / loan.dailyPay⌉

/-- The near-to-closing filter predicate of the Dashboard calculateMetrics. -/
def nearToClosingPred (loan : Loan) : Bool :=
  if loan.status = LoanStatus.Completed ∨ loan.isDisabled = true then false
  else decide (remainingDaysOf loan ≤ 10 ∧ 0 < remainingDaysOf loan)

/-- nearToClosingCustomers of the Dashboard calculateMetrics. -/
def nearToClosingCustomers (loans : List Loan) : List Loan :=
  loans.filter nearToClosingPred

/-! ### Helper lemmas about the loan metrics calculation -/

theorem calculateLoanMetrics_id (collections : List Collection) (loan : Loan) :
    (calculateLoanMetrics collections loan).id = loan.id := rfl

theorem calculateLoanMetrics_isDisabled (collections : List Collection) (loan : Loan) :
    (calculateLoanMetrics collections loan).isDisabled = loan.isDisabled := rfl

theorem calculateLoanMetrics_collected (collections : List Collection) (loan : Loan) :
    (calculateLoanMetrics collections loan).collected = collectedAmount collections loan.id := rfl

theorem calculateLoanMetrics_totalToReceive (collections : List Collection) (loan : Loan) :
    (calculateLoanMetrics collections loan).totalToReceive = loan.loanAmount := rfl

theorem calculateLoanMetrics_balance (collections : List Collection) (loan : Loan) :
    (calculateLoanMetrics collections loan).balance
      = max 0 (loan.loanAmount - collectedAmount collections loan.id) := rfl

theorem calculateLoanMetrics_profit (collections : List Collection) (loan : Loan) :
    (calculateLoanMetrics collections loan).profit
      = loan.deduction + (loan.loanAmount - loan.netGiven) := rfl

theorem calculateLoanMetrics_status (collections : List Collection) (loan : Loan) :
    (calculateLoanMetrics collections loan).status
      = (if loan.isDisabled then LoanStatus.Disabled
         else if max 0 (loan.loanAmount - collectedAmount collections loan.id) ≤ 0 then
           LoanStatus.Completed
         else LoanStatus.Ongoing) := rfl

theorem collectedAmount_of_no_match (collections : List Collection) (loanId : String)
    (h : ∀ c ∈ collections, ¬ c.loanId = loanId) :
    collectedAmount collections loanId = 0 := by
  unfold collectedAmount
  rw [List.filter_eq_nil_iff.mpr (fun c hc => by simpa using h c hc)]
  rfl

theorem collectedAmount_append_one (collections : List Collection) (c : Collection)
    (loanId : String) (h : c.loanId = loanId) :
    collectedAmount (collections ++ [c]) loanId
      = collectedAmount collections loanId + c.amountPaid := by
  unfold collectedAmount
  rw [List.filter_append, List.foldl_append]
  simp [h]

theorem calculateLoanMetrics_input_congr (collections : List Collection) (l₁ l₂ : Loan)
    (hid : l₁.id = l₂.id) (hname : l₁.customerName = l₂.customerName)
    (hdate : l₁.date = l₂.date) (hamt : l₁.loanAmount = l₂.loanAmount)
    (hded : l₁.deduction = l₂.deduction) (hnet : l₁.netGiven = l₂.netGiven)
    (hdp : l₁.dailyPay = l₂.dailyPay) (hdays : l₁.days = l₂.days)
    (hdis : l₁.isDisabled = l₂.isDisabled) :
    calculateLoanMetrics collections l₁ = calculateLoanMetrics collections l₂ := by
  cases l₁
  cases l₂
  simp only at hid hname hdate hamt hded hnet hdp hdays hdis
  subst hid hname hdate hamt hded hnet hdp hdays hdis
  rfl

/-! ### Claim theorems about the loan metrics calculation -/

/-- Claim C1, counterexample: against the current calculateLoanMetrics the
stated collected-based profit formula fails on the Scenario-A loan with an
empty collection set: the code derives profit 1000 = deduction
+ (loanAmount - netGiven), while the stated formula gives
deduction + max(0, 0 - netGiven) = 500. -/
def scenarioLoan : Loan where
  id := "L1"
  customerName := "C"
  date := 0
  loanAmount := 10000
  deduction := 500
  netGiven := 9500
  dailyPay := 100
  days := 100
  totalToReceive := 10000
  collected := 0
  balance := 10000
  status := LoanStatus.Ongoing
  profit := 1000
  isDisabled := false

/-- The Scenario-B collection paying the scenario loan in full. -/
def scenarioCollection : Collection where
  id := "c1"
  date := 1
  loanId := "L1"
  customer := "C"
  amountPaid := 10000
  collectedBy := "S"
  remarks := ""

/-- Claim C1 (counterexample): with zero collections the derived profit of
the scenario loan is 1000, not deduction + max(0, collected - netGiven)
= 500, so the claimed formula does not hold for every collection set. -/
theorem profit_formula_counterexample :
    ¬ (calculateLoanMetrics [] scenarioLoan).profit
        = scenarioLoan.deduction
          + max 0 (collectedAmount [] scenarioLoan.id - scenarioLoan.netGiven) := by
  simp [calculateLoanMetrics, collectedAmount, scenarioLoan]
  norm_num

/-- Claim C1 (amended): the derived profit equals
deduction + (loanAmount - netGiven) for every collection set; in
particular, for the loan with loanAmount 10000, deduction 500, netGiven
9500 and a single matching collection of 10000 the derived profit is
1000 (as the original claim stated for that instance). -/
theorem profit_formula_amended (collections : List Collection) (loan : Loan) :
    (calculateLoanMetrics collections loan).profit
        = loan.deduction + (loan.loanAmount - loan.netGiven)
      ∧ (calculateLoanMetrics [scenarioCollection] scenarioLoan).profit = 1000 := by
  refine ⟨rfl, ?_⟩
  simp [calculateLoanMetrics, scenarioLoan]
  norm_num

/-- Claim C2: the derived balance is max(0, totalToReceive - collected),
hence never negative, and the derived collected is exactly the sum of
amountPaid over matching collections, 0 when none matches. -/
theorem balance_collected_invariant (collections : List Collection) (loan : Loan) :
    (calculateLoanMetrics collections loan).balance
        = max 0 ((calculateLoanMetrics collections loan).totalToReceive
            - (calculateLoanMetrics collections loan).collected)
      ∧ 0 ≤ (calculateLoanMetrics collections loan).balance
      ∧ (calculateLoanMetrics collections loan).collected
          = collectedAmount collections loan.id
      ∧ ((∀ c ∈ collections, ¬ c.loanId = loan.id) →
          (calculateLoanMetrics collections loan).collected = 0) := by
  refine ⟨rfl, le_max_left 0 _, rfl, fun h => ?_⟩
  rw [calculateLoanMetrics_collected, collectedAmount_of_no_match collections loan.id h]

/-- Claim C2, witness: the invariant instantiated at the scenario loan and
a non-matching collection set. -/
theorem balance_collected_invariant_witness :
    (calculateLoanMetrics [scenarioCollection] { scenarioLoan with id := "X" }).collected
      = 0 := by
  have h := balance_collected_invariant [scenarioCollection] { scenarioLoan with id := "X" }
  exact h.2.2.2 (by simp [scenarioCollection, scenarioLoan])

/-- Claim C7: the derived status is Disabled exactly when isDisabled holds,
otherwise Completed exactly when the derived balance is ≤ 0 and Ongoing
otherwise; and toggling isDisabled twice on a store whose matching loans
carry the derived metrics restores the state (hence the status) exactly. -/
theorem status_function_and_toggle :
    (∀ (collections : List Collection) (loan : Loan),
        ((calculateLoanMetrics collections loan).status = LoanStatus.Disabled
            ↔ loan.isDisabled = true)
        ∧ (loan.isDisabled = false →
            (((calculateLoanMetrics collections loan).status = LoanStatus.Completed
                ↔ (calculateLoanMetrics collections loan).balance ≤ 0)
              ∧ ((calculateLoanMetrics collections loan).status = LoanStatus.Ongoing
                ↔ ¬ (calculateLoanMetrics collections loan).balance ≤ 0))))
    ∧ ∀ (st : FinState) (loanId : String),
        (∀ l ∈ st.loans, l.id = loanId → l = calculateLoanMetrics st.collections l) →
        toggleLoanStatus (toggleLoanStatus st loanId) loanId = st := by
  constructor
  · intro collections loan
    constructor
    · rw [calculateLoanMetrics_status]
      cases h : loan.isDisabled
      · simp only [Bool.false_eq_true, if_false]
        split <;> simp
      · simp
    · intro hdis
      rw [calculateLoanMetrics_status, calculateLoanMetrics_balance, hdis]
      simp only [Bool.false_eq_true, if_false]
      split <;> simp_all
  · intro st loanId h
    have hmap : ∀ l ∈ st.loans,
        (fun loan =>
          if loan.id = loanId then
            calculateLoanMetrics st.collections { loan with isDisabled := !loan.isDisabled }
          else loan)
        ((fun loan =>
          if loan.id = loanId then
            calculateLoanMetrics st.collections { loan with isDisabled := !loan.isDisabled }
          else loan) l) = l := by
      intro l hl
      dsimp only
      by_cases hid : l.id = loanId
      · have hid₂ : (calculateLoanMetrics st.collections
            { l with isDisabled := !l.isDisabled }).id = loanId := by
          rw [calculateLoanMetrics_id]; exact hid
        rw [if_pos hid, if_pos hid₂]
        refine Eq.trans
          (calculateLoanMetrics_input_congr st.collections _ l rfl rfl rfl rfl rfl rfl rfl rfl ?_)
          (h l hl hid).symm
        simp [calculateLoanMetrics_isDisabled]
      · rw [if_neg hid, if_neg hid]
    cases st with
    | mk loans collections =>
      simp only [toggleLoanStatus, List.map_map, FinState.mk.injEq, and_true]
      calc loans.map _ = loans.map (fun l => l) := List.map_congr_left (fun l hl => hmap l hl)
        _ = loans := List.map_id' loans

/-- A store holding the derived scenario loan, used as a concrete witness
state. -/
def toggleWitnessState : FinState where
  loans := [calculateLoanMetrics [] scenarioLoan]
  collections := []

/-- Claim C7, witness: on a store with one derived loan, toggling the
disable flag twice restores the store exactly. -/
theorem status_function_and_toggle_witness :
    toggleLoanStatus (toggleLoanStatus toggleWitnessState "L1") "L1"
      = toggleWitnessState := by
  refine status_function_and_toggle.2 _ "L1" ?_
  intro l hl _
  simp only [toggleWitnessState, List.mem_singleton] at hl
  subst hl
  exact calculateLoanMetrics_input_congr [] _ _ rfl rfl rfl rfl rfl rfl rfl rfl rfl

/-- Claim C9: membership in the near-to-closing set is exactly: the loan is
in the list, neither Completed nor disabled, and the ceiling of
max(0, loanAmount - collected) / dailyPay is positive and at most 10;
and a loan with dailyPay = 0 is never in the set. -/
theorem near_to_closing_membership (loans : List Loan) (loan : Loan) :
    (loan ∈ nearToClosingCustomers loans ↔
        loan ∈ loans
        ∧ ¬ (loan.status = LoanStatus.Completed ∨ loan.isDisabled = true)
        ∧ 0 < ⌈max 0 (loan.loanAmount - loan.collected) / loan.dailyPay⌉
        ∧ ⌈max 0 (loan.loanAmount - loan.collected) / loan.dailyPay⌉ ≤ 10)
      ∧ (loan.dailyPay = 0 → loan ∉ nearToClosingCustomers loans) := by
  have hiff : nearToClosingPred loan = true ↔
      ¬ (loan.status = LoanStatus.Completed ∨ loan.isDisabled = true)
      ∧ 0 < ⌈max 0 (loan.loanAmount - loan.collected) / loan.dailyPay⌉
      ∧ ⌈max 0 (loan.loanAmount - loan.collected) / loan.dailyPay⌉ ≤ 10 := by
    unfold nearToClosingPred remainingDaysOf
    by_cases hp : loan.status = LoanStatus.Completed ∨ loan.isDisabled = true
    · simp [hp]
    · simp only [hp, if_false, not_false_iff, true_and, decide_eq_true_eq]
      tauto
  constructor
  · rw [nearToClosingCustomers, List.mem_filter, hiff]
  · intro h0 hmem
    rw [nearToClosingCustomers, List.mem_filter, hiff] at hmem
    rcases hmem with ⟨-, -, hpos, -⟩
    rw [h0, div_zero, Int.ceil_zero] at hpos
    exact lt_irrefl 0 hpos

/-- Claim C9, witness: a non-completed loan with dailyPay 0 is excluded
from the near-to-closing set. -/
theorem near_to_closing_membership_witness :
    { scenarioLoan with dailyPay := 0 }
      ∉ nearToClosingCustomers [{ scenarioLoan with dailyPay := 0 }] :=
  (near_to_closing_membership [{ scenarioLoan with dailyPay := 0 }]
    { scenarioLoan with dailyPay := 0 }).2 rfl

/-! ### Store operations: frame effects, cascade delete, collection insertion -/

/-- Claim C10: when no stored loan carries the requested id, updateLoan,
toggleLoanStatus and addBulkCollection leave the store exactly as it was
(and, having no error channel, raise nothing). -/
theorem missing_id_frame (st : FinState) (loanId : String) (u : LoanUpdates)
    (collectedBy remarks : String) (now : ℕ) (today : ℤ)
    (h : ∀ l ∈ st.loans, ¬ l.id = loanId) :
    updateLoan st loanId u = st
      ∧ toggleLoanStatus st loanId = st
      ∧ addBulkCollection st loanId collectedBy remarks now today = st := by
  have hmapId : ∀ (f : Loan → Loan),
      (∀ l ∈ st.loans, f l = l) → st.loans.map f = st.loans := by
    intro f hf
    rw [List.map_congr_left hf, List.map_id' st.loans]
  refine ⟨?_, ?_, ?_⟩
  · show ({ st with loans := _ } : FinState) = st
    rw [hmapId _ (fun l hl => if_neg (h l hl))]
  · show ({ st with loans := _ } : FinState) = st
    rw [hmapId _ (fun l hl => if_neg (h l hl))]
  · unfold addBulkCollection
    rw [List.find?_eq_none.mpr (fun l hl => by simpa using h l hl)]

/-- Claim C10, witness: the three operations at the id of no stored loan,
on a one-loan store. -/
theorem missing_id_frame_witness :
    updateLoan toggleWitnessState "missing" {} = toggleWitnessState
      ∧ toggleLoanStatus toggleWitnessState "missing" = toggleWitnessState
      ∧ addBulkCollection toggleWitnessState "missing" "" "" 3 4 = toggleWitnessState := by
  refine missing_id_frame toggleWitnessState "missing" {} "" "" 3 4 ?_
  intro l hl
  simp only [toggleWitnessState, List.mem_singleton] at hl
  subst hl
  simp [calculateLoanMetrics_id, scenarioLoan]

/-- Claim C8: deleting a stored loan removes it, removes every collection
referencing its id, and, provided every collection referenced some stored
loan beforehand, leaves no collection referencing a non-existent loanId. -/
theorem delete_loan_cascade (st : FinState) (L : Loan) (hL : L ∈ st.loans)
    (hint : ∀ c ∈ st.collections, ∃ l ∈ st.loans, l.id = c.loanId) :
    L ∉ (deleteLoan st L.id).loans
      ∧ (∀ l ∈ (deleteLoan st L.id).loans, ¬ l.id = L.id)
      ∧ (∀ c ∈ (deleteLoan st L.id).collections, ¬ c.loanId = L.id)
      ∧ ∀ c ∈ (deleteLoan st L.id).collections,
          ∃ l ∈ (deleteLoan st L.id).loans, l.id = c.loanId := by
  have hloans : ∀ l ∈ (deleteLoan st L.id).loans, l ∈ st.loans ∧ ¬ l.id = L.id := by
    intro l hl
    rw [deleteLoan, List.mem_filter] at hl
    exact ⟨hl.1, by simpa using hl.2⟩
  have hcolls : ∀ c ∈ (deleteLoan st L.id).collections,
      c ∈ st.collections ∧ ¬ c.loanId = L.id := by
    intro c hc
    rw [deleteLoan, List.mem_filter] at hc
    exact ⟨hc.1, by simpa using hc.2⟩
  refine ⟨fun hmem => (hloans L hmem).2 rfl, fun l hl => (hloans l hl).2,
    fun c hc => (hcolls c hc).2, fun c hc => ?_⟩
  obtain ⟨hcmem, hcid⟩ := hcolls c hc
  obtain ⟨l, hlmem, hlid⟩ := hint c hcmem
  refine ⟨l, ?_, hlid⟩
  rw [deleteLoan, List.mem_filter]
  exact ⟨hlmem, by simp [hlid ▸ hcid]⟩

/-- A store holding the scenario loan and its matching collection. -/
def scenarioState : FinState where
  loans := [scenarioLoan]
  collections := [scenarioCollection]

/-- Claim C8, witness: deleting the only loan of a store holding one
matching collection removes it from the loan set. -/
theorem delete_loan_cascade_witness :
    scenarioLoan ∉ (deleteLoan scenarioState scenarioLoan.id).loans := by
  refine (delete_loan_cascade scenarioState scenarioLoan ?_ ?_).1
  · simp [scenarioState]
  · intro c hc
    simp only [scenarioState, List.mem_singleton] at hc
    subst hc
    exact ⟨scenarioLoan, by simp [scenarioState], by simp [scenarioLoan, scenarioCollection]⟩

/-! ### Bulk and custom collection -/

/-- A completed loan (balance 0) in a store, for exercising the full-mode
guard. -/
def settledLoan : Loan where
  id := "L1"
  customerName := "A"
  date := 0
  loanAmount := 1000
  deduction := 0
  netGiven := 1000
  dailyPay := 10
  days := 100
  totalToReceive := 1000
  collected := 1000
  balance := 0
  status := LoanStatus.Completed
  profit := 0
  isDisabled := false

/-- Store holding only the settled loan. -/
def settledState : FinState where
  loans := [settledLoan]
  collections := []

/-- A disabled loan with an open balance, for exercising full-mode
collection of a disabled loan. -/
def disabledLoan : Loan where
  id := "L2"
  customerName := "D"
  date := 0
  loanAmount := 3000
  deduction := 0
  netGiven := 3000
  dailyPay := 30
  days := 100
  totalToReceive := 3000
  collected := 0
  balance := 3000
  status := LoanStatus.Disabled
  profit := 0
  isDisabled := true

/-- Store holding only the disabled loan. -/
def disabledState : FinState where
  loans := [disabledLoan]
  collections := []

/-- Claim C5 (counterexample): on a loan with balance 0 the full-mode
submission raises no error at all, it silently no-ops and even reports
success (so it does not fail with an InvalidState error); and on a
disabled loan with positive balance the insertion goes through but
re-derivation yields status Disabled, not Completed. -/
theorem bulk_collection_counterexample :
    handleSubmitBulk settledState "L1" CollectionMode.hundredDays 0 "" "" 0 0
        = (settledState, SubmitOutcome.success)
      ∧ (addBulkCollection disabledState "L2" "" "" 0 0).loans.map Loan.status
          = [LoanStatus.Disabled]
      ∧ (addBulkCollection disabledState "L2" "" "" 0 0).loans.map Loan.balance
          = [0] := by
  have h3000 : ¬ ((3000 : ℚ) ≤ 0) := by norm_num
  have hmax : max (0 : ℚ) (3000 - (0 + 3000)) = 0 := by norm_num
  refine ⟨?_, ?_, ?_⟩
  · simp [handleSubmitBulk, addBulkCollection, settledState, settledLoan]
  · simp [addBulkCollection, addCollection, calculateLoanMetrics, collectedAmount,
      disabledState, disabledLoan, h3000]
  · simp [addBulkCollection, addCollection, calculateLoanMetrics, collectedAmount,
      disabledState, disabledLoan, h3000, hmax]

/-- Claim C5 (amended): full-mode bulk collection on a stored loan is a
silent no-op when its balance is ≤ 0 (no error is surfaced, nothing is
inserted); when the balance is positive it inserts exactly one collection
with amountPaid the current balance, the current date and a synthesized
id, after which re-deriving the loan (whose stored fields carry the
derived metrics) yields balance 0, and status Completed when the loan is
not disabled. -/
theorem bulk_collection_full (st : FinState) (loanId collectedBy remarks : String)
    (now : ℕ) (today : ℤ) (loan : Loan)
    (hfind : st.loans.find? (fun l => decide (l.id = loanId)) = some loan)
    (hcons : loan = calculateLoanMetrics st.collections loan) :
    (loan.balance ≤ 0 → addBulkCollection st loanId collectedBy remarks now today = st)
      ∧ (0 < loan.balance →
          (addBulkCollection st loanId collectedBy remarks now today).collections
              = st.collections ++
                [{ id := "bulk-" ++ toString now
                   date := today
                   loanId := loanId
                   customer := loan.customerName
                   amountPaid := loan.balance
                   collectedBy := if collectedBy = "" then "System" else collectedBy
                   remarks := if remarks = "" then "100 days bulk collection" else remarks }]
            ∧ (calculateLoanMetrics
                  (addBulkCollection st loanId collectedBy remarks now today).collections
                  loan).balance = 0
            ∧ (loan.isDisabled = false →
                (calculateLoanMetrics
                    (addBulkCollection st loanId collectedBy remarks now today).collections
                    loan).status = LoanStatus.Completed)) := by
  have hid : loan.id = loanId := by
    have := List.find?_some hfind
    simpa using this
  constructor
  · intro hle
    unfold addBulkCollection
    rw [hfind]
    dsimp only
    rw [if_pos hle]
  · intro hpos
    have hbal : addBulkCollection st loanId collectedBy remarks now today
        = addCollection st
            { id := "bulk-" ++ toString now
              date := today
              loanId := loanId
              customer := loan.customerName
              amountPaid := loan.balance
              collectedBy := if collectedBy = "" then "System" else collectedBy
              remarks := if remarks = "" then "100 days bulk collection" else remarks } := by
      unfold addBulkCollection
      rw [hfind]
      dsimp only
      rw [if_neg (not_le.mpr hpos)]
    have hcoll : (addBulkCollection st loanId collectedBy remarks now today).collections
        = st.collections ++
          [{ id := "bulk-" ++ toString now
             date := today
             loanId := loanId
             customer := loan.customerName
             amountPaid := loan.balance
             collectedBy := if collectedBy = "" then "System" else collectedBy
             remarks := if remarks = "" then "100 days bulk collection" else remarks }] := by
      rw [hbal]; rfl
    have hstored : loan.balance
        = max 0 (loan.loanAmount - collectedAmount st.collections loan.id) := by
      conv_lhs => rw [hcons]
      rw [calculateLoanMetrics_balance]
    have hdiff : loan.balance = loan.loanAmount - collectedAmount st.collections loan.id := by
      rcases max_cases 0 (loan.loanAmount - collectedAmount st.collections loan.id) with
        ⟨hmax, _⟩ | ⟨hmax, _⟩
      · rw [hstored, hmax] at hpos
        exact absurd hpos (lt_irrefl 0)
      · rw [hstored, hmax]
    have hnew : collectedAmount
        ((addBulkCollection st loanId collectedBy remarks now today).collections) loan.id
        = collectedAmount st.collections loan.id + loan.balance := by
      rw [hcoll, collectedAmount_append_one _ _ _ hid.symm]
    have hzero : (calculateLoanMetrics
        (addBulkCollection st loanId collectedBy remarks now today).collections
        loan).balance = 0 := by
      rw [calculateLoanMetrics_balance, hnew, hdiff]
      ring_nf
      simp
    refine ⟨hcoll, hzero, fun hdis => ?_⟩
    rw [calculateLoanMetrics_status, hdis]
    simp only [Bool.false_eq_true, if_false]
    rw [if_pos]
    rw [calculateLoanMetrics_balance] at hzero
    rw [hzero]

/-- A store holding the (derivation-consistent) scenario loan and no
collections yet. -/
def ongoingState : FinState where
  loans := [scenarioLoan]
  collections := []

/-- Claim C5, witness: full-mode collection of a consistent ongoing loan
with balance 10000 inserts the synthesized collection and re-derives to a
completed loan with balance 0 (Scenario C). -/
theorem bulk_collection_full_witness :
    (addBulkCollection ongoingState "L1" "" "" 5 7).collections
        = [{ id := "bulk-5", date := 7, loanId := "L1", customer := "C",
             amountPaid := scenarioLoan.balance, collectedBy := "System",
             remarks := "100 days bulk collection" }]
      ∧ (calculateLoanMetrics (addBulkCollection ongoingState "L1" "" "" 5 7).collections
          scenarioLoan).balance = 0
      ∧ (calculateLoanMetrics (addBulkCollection ongoingState "L1" "" "" 5 7).collections
          scenarioLoan).status = LoanStatus.Completed := by
  have hfind : ongoingState.loans.find? (fun l => decide (l.id = "L1"))
      = some scenarioLoan := by
    simp [ongoingState, scenarioLoan]
  have hcons : scenarioLoan = calculateLoanMetrics ongoingState.collections scenarioLoan := by
    simp only [ongoingState]
    simp [calculateLoanMetrics, collectedAmount, scenarioLoan, Loan.mk.injEq]
    norm_num
  have h := (bulk_collection_full ongoingState "L1" "" "" 5 7 scenarioLoan hfind hcons).2
    (by rw [show scenarioLoan.balance = 10000 from rfl]; norm_num)
  refine ⟨?_, h.2.1, h.2.2 rfl⟩
  rw [h.1]
  rfl

/-- Claim C6: custom-mode collection on a stored loan fails (destructive
toast, the ValidationError of the spec) when the amount is ≤ 0 or exceeds
the stored balance, leaving the store — hence the loan's balance —
unchanged; for an amount within the balance it succeeds and inserts
exactly one collection with amountPaid the requested amount. -/
theorem custom_collection_validation (st : FinState) (loanId : String)
    (customAmount : ℚ) (collectedBy remarks : String) (now : ℕ) (today : ℤ) (loan : Loan)
    (hid : ¬ loanId = "")
    (hfind : st.loans.find? (fun l => decide (l.id = loanId)) = some loan) :
    (customAmount ≤ 0 ∨ loan.balance < customAmount →
        (handleSubmitBulk st loanId CollectionMode.custom customAmount
            collectedBy remarks now today).1 = st
        ∧ ∃ d, (handleSubmitBulk st loanId CollectionMode.custom customAmount
            collectedBy remarks now today).2 = SubmitOutcome.failure d)
      ∧ (0 < customAmount → customAmount ≤ loan.balance →
          (handleSubmitBulk st loanId CollectionMode.custom customAmount
              collectedBy remarks now today).1.collections
              = st.collections ++
                [{ id := "custom-" ++ toString now
                   date := today
                   loanId := loanId
                   customer := loan.customerName
                   amountPaid := customAmount
                   collectedBy := if collectedBy = "" then "System" else collectedBy
                   remarks := if remarks = "" then "Custom collection" else remarks }]
            ∧ (handleSubmitBulk st loanId CollectionMode.custom customAmount
                collectedBy remarks now today).2 = SubmitOutcome.success) := by
  unfold handleSubmitBulk
  rw [if_neg hid]
  dsimp only
  rw [hfind]
  dsimp only
  constructor
  · rintro (hle | hgt)
    · rw [if_pos hle]
      exact ⟨rfl, "Please enter a valid amount", rfl⟩
    · by_cases hle : customAmount ≤ 0
      · rw [if_pos hle]
        exact ⟨rfl, "Please enter a valid amount", rfl⟩
      · rw [if_neg hle, if_pos hgt]
        exact ⟨rfl, "Amount cannot exceed balance", rfl⟩
  · intro hpos hle
    rw [if_neg (not_le.mpr hpos), if_neg (not_lt.mpr hle)]
    exact ⟨rfl, rfl⟩

/-- Claim C6, witness: on the stored scenario loan (balance 10000), a
custom amount of 20000 is rejected with a failure toast and the store is
untouched, while a custom amount of 5000 succeeds and appends exactly the
synthesized collection. -/
theorem custom_collection_validation_witness :
    ((handleSubmitBulk ongoingState "L1" CollectionMode.custom 20000 "" "" 5 7).1
        = ongoingState
      ∧ ∃ d, (handleSubmitBulk ongoingState "L1" CollectionMode.custom 20000 "" "" 5 7).2
          = SubmitOutcome.failure d)
    ∧ (handleSubmitBulk ongoingState "L1" CollectionMode.custom 5000 "" "" 5 7).1.collections
        = [{ id := "custom-5", date := 7, loanId := "L1", customer := "C",
             amountPaid := 5000, collectedBy := "System",
             remarks := "Custom collection" }] := by
  have hfind : ongoingState.loans.find? (fun l => decide (l.id = "L1"))
      = some scenarioLoan := by
    simp [ongoingState, scenarioLoan]
  have hbal : scenarioLoan.balance = 10000 := rfl
  constructor
  · exact (custom_collection_validation ongoingState "L1" 20000 "" "" 5 7 scenarioLoan
      (by simp) hfind).1 (Or.inr (by rw [hbal]; norm_num))
  · have h := ((custom_collection_validation ongoingState "L1" 5000 "" "" 5 7 scenarioLoan
      (by simp) hfind).2 (by norm_num) (by rw [hbal]; norm_num)).1
    rw [h]
    rfl

/-! ### Ledger builder lemmas -/

/-- Everything of a ledger row except its balance: the data the balance
pass never touches. -/
def rowShape (r : LedgerRow) : String × ℤ × ℤ × String × ℚ × ℚ × RowType :=
  (r.id, r.date, r.time, r.description, r.inflow, r.outflow, r.type)

theorem rowShape_time {x y : LedgerRow} (h : rowShape x = rowShape y) : x.time = y.time := by
  simp only [rowShape, Prod.mk.injEq] at h
  exact h.2.2.1

theorem rowShape_type {x y : LedgerRow} (h : rowShape x = rowShape y) : x.type = y.type := by
  simp only [rowShape, Prod.mk.injEq] at h
  exact h.2.2.2.2.2.2

theorem ledgerLE_shape_congr {a x y : LedgerRow} (h : rowShape x = rowShape y)
    (hle : ledgerLE a y) : ledgerLE a x := by
  unfold ledgerLE at hle ⊢
  rw [rowShape_time h, rowShape_type h]
  exact hle

theorem balancePass_map_shape (acc : ℚ) (rows : List LedgerRow) :
    (balancePass acc rows).map rowShape = rows.map rowShape := by
  induction rows generalizing acc with
  | nil => rfl
  | cons r rest ih =>
    unfold balancePass
    by_cases h : r.type = RowType.manual ∨ r.type = RowType.opening
    · rw [if_pos h]
      simp only [List.map_cons]
      rw [ih]
    · rw [if_neg h]
      simp only [List.map_cons]
      rw [ih]
      rfl

theorem balancePass_mem_shape {x : LedgerRow} {acc : ℚ} {rows : List LedgerRow}
    (hx : x ∈ balancePass acc rows) : ∃ y ∈ rows, rowShape x = rowShape y := by
  have : rowShape x ∈ (balancePass acc rows).map rowShape := List.mem_map_of_mem rowShape hx
  rw [balancePass_map_shape] at this
  obtain ⟨y, hy, hshape⟩ := List.mem_map.mp this
  exact ⟨y, hy, hshape.symm⟩

theorem balancePass_mem_of_fundlike {x : LedgerRow} :
    ∀ {acc : ℚ} {rows : List LedgerRow}, x ∈ balancePass acc rows →
      x.type = RowType.opening ∨ x.type = RowType.manual → x ∈ rows := by
  intro acc rows
  induction rows generalizing acc with
  | nil => intro hx _; exact absurd hx (List.not_mem_nil x)
  | cons r rest ih =>
    intro hx htype
    unfold balancePass at hx
    by_cases h : r.type = RowType.manual ∨ r.type = RowType.opening
    · rw [if_pos h] at hx
      rcases List.mem_cons.mp hx with hx | hx
      · exact hx ▸ List.mem_cons_self r rest
      · exact List.mem_cons_of_mem r (ih hx htype)
    · rw [if_neg h] at hx
      rcases List.mem_cons.mp hx with hx | hx
      · exfalso
        apply h
        have ht : x.type = r.type := by rw [hx]
        rw [← ht]
        exact htype.symm
      · exact List.mem_cons_of_mem r (ih hx htype)

theorem balancePass_chain (acc : ℚ) (rows : List LedgerRow) :
    List.Chain'
        (fun a b => (b.type = RowType.loan ∨ b.type = RowType.collection) →
          b.balance = a.balance + b.inflow - b.outflow)
        (balancePass acc rows)
      ∧ ∀ h₀ ∈ (balancePass acc rows).head?,
          (h₀.type = RowType.loan ∨ h₀.type = RowType.collection) →
            h₀.balance = acc + h₀.inflow - h₀.outflow := by
  induction rows generalizing acc with
  | nil => exact ⟨List.chain'_nil, by simp [balancePass]⟩
  | cons r rest ih =>
    unfold balancePass
    by_cases h : r.type = RowType.manual ∨ r.type = RowType.opening
    · rw [if_pos h]
      have ihr := ih r.balance
      refine ⟨List.chain'_cons'.mpr ⟨?_, ihr.1⟩, ?_⟩
      · intro y hy hty
        exact ihr.2 y hy hty
      · intro h₀ hh₀ hty
        simp only [List.head?_cons, Option.mem_def, Option.some.injEq] at hh₀
        subst hh₀
        rcases h with hm | hm <;> rcases hty with ht | ht <;>
          · rw [hm] at ht
            exact absurd ht (by simp)
    · rw [if_neg h]
      dsimp only
      set b := acc + r.inflow - r.outflow with hb
      have ihb := ih b
      refine ⟨List.chain'_cons'.mpr ⟨?_, ihb.1⟩, ?_⟩
      · intro y hy hty
        have := ihb.2 y hy hty
        rw [this, hb]
      · intro h₀ hh₀ hty
        simp only [List.head?_cons, Option.mem_def, Option.some.injEq] at hh₀
        subst hh₀
        rfl

theorem balancePass_filter_loan_shape (acc : ℚ) (rows : List LedgerRow) :
    (((balancePass acc rows).filter (fun r => decide (r.type = RowType.loan))).map rowShape)
      = ((rows.filter (fun r => decide (r.type = RowType.loan))).map rowShape) := by
  induction rows generalizing acc with
  | nil => rfl
  | cons r rest ih =>
    unfold balancePass
    by_cases h : r.type = RowType.manual ∨ r.type = RowType.opening
    · rw [if_pos h]
      by_cases ht : r.type = RowType.loan
      · simp [List.filter_cons, ht, ih]
      · simp [List.filter_cons, ht, ih]
    · rw [if_neg h]
      dsimp only
      by_cases ht : r.type = RowType.loan
      · simp [List.filter_cons, ht, ih]
        simp [rowShape, ht]
      · simp [List.filter_cons, ht, ih]

theorem balancePass_pairwise (acc : ℚ) (rows : List LedgerRow)
    (hp : List.Pairwise ledgerLE rows) :
    List.Pairwise ledgerLE (balancePass acc rows) := by
  induction rows generalizing acc with
  | nil => exact List.Pairwise.nil
  | cons r rest ih =>
    rcases List.pairwise_cons.mp hp with ⟨hr, hrest⟩
    unfold balancePass
    by_cases h : r.type = RowType.manual ∨ r.type = RowType.opening
    · rw [if_pos h]
      refine List.pairwise_cons.mpr ⟨?_, ih r.balance hrest⟩
      intro x hx
      obtain ⟨y, hy, hshape⟩ := balancePass_mem_shape hx
      exact ledgerLE_shape_congr hshape (hr y hy)
    · rw [if_neg h]
      dsimp only
      refine List.pairwise_cons.mpr ⟨?_, ih _ hrest⟩
      intro x hx
      obtain ⟨y, hy, hshape⟩ := balancePass_mem_shape hx
      have hle : ledgerLE r y := hr y hy
      have : ledgerLE r x := ledgerLE_shape_congr hshape hle
      unfold ledgerLE at this ⊢
      exact this

theorem fundLedgerRow_type_not_loan (f : Fund) : ¬ (fundLedgerRow f).type = RowType.loan := by
  unfold fundLedgerRow
  dsimp only
  split <;> simp

theorem fundLedgerRow_type_fundlike (f : Fund) :
    (fundLedgerRow f).type = RowType.opening ∨ (fundLedgerRow f).type = RowType.manual := by
  unfold fundLedgerRow
  dsimp only
  split
  · exact Or.inl rfl
  · exact Or.inr rfl

theorem collectionLedgerRows_type {x : LedgerRow} {collections : List Collection}
    (hx : x ∈ collectionLedgerRows collections) : x.type = RowType.collection := by
  unfold collectionLedgerRows at hx
  obtain ⟨d, _, hd⟩ := List.mem_filterMap.mp hx
  by_cases hpos : 0 < collectionDayTotal collections d
  · rw [if_pos hpos] at hd
    cases hd
    rfl
  · rw [if_neg hpos] at hd
    cases hd

theorem rawLedgerRows_filter_loan (funds : List Fund) (loans : List Loan)
    (collections : List Collection) :
    (rawLedgerRows funds loans collections).filter (fun r => decide (r.type = RowType.loan))
      = (loans.filter (fun l => decide (¬ l.id = "" ∧ l.isDisabled = false))).map
          loanLedgerRow := by
  unfold rawLedgerRows
  rw [List.filter_append, List.filter_append]
  have hfunds : ((funds.filter (fun f => decide (¬ f.id = ""))).map fundLedgerRow).filter
      (fun r => decide (r.type = RowType.loan)) = [] :=
    List.filter_eq_nil_iff.mpr (fun r hr => by
      obtain ⟨f, _, hf⟩ := List.mem_map.mp hr
      simpa [← hf] using fundLedgerRow_type_not_loan f)
  have hloans : ((loans.filter (fun l => decide (¬ l.id = "" ∧ l.isDisabled = false))).map
      loanLedgerRow).filter (fun r => decide (r.type = RowType.loan))
      = (loans.filter (fun l => decide (¬ l.id = "" ∧ l.isDisabled = false))).map
          loanLedgerRow :=
    List.filter_eq_self.mpr (fun r hr => by
      obtain ⟨l, _, hl⟩ := List.mem_map.mp hr
      simp [← hl, loanLedgerRow])
  have hcolls : (collectionLedgerRows collections).filter
      (fun r => decide (r.type = RowType.loan)) = [] :=
    List.filter_eq_nil_iff.mpr (fun r hr => by
      have := collectionLedgerRows_type hr
      simp [this])
  rw [hfunds, hloans, hcolls]
  simp

theorem rawLedgerRows_mem_fundlike {x : LedgerRow} {funds : List Fund} {loans : List Loan}
    {collections : List Collection} (hx : x ∈ rawLedgerRows funds loans collections)
    (ht : x.type = RowType.opening ∨ x.type = RowType.manual) :
    ∃ f ∈ funds, x = fundLedgerRow f := by
  unfold rawLedgerRows at hx
  rcases List.mem_append.mp hx with hx | hx
  · rcases List.mem_append.mp hx with hx | hx
    · obtain ⟨f, hf, hfx⟩ := List.mem_map.mp hx
      exact ⟨f, (List.mem_filter.mp hf).1, hfx.symm⟩
    · obtain ⟨l, _, hlx⟩ := List.mem_map.mp hx
      exfalso
      rcases ht with ht | ht <;>
        · rw [← hlx] at ht
          exact absurd ht (by simp [loanLedgerRow])
  · exfalso
    have := collectionLedgerRows_type hx
    rcases ht with ht | ht <;> rw [ht] at this <;> exact absurd this (by simp)

/-! ### Claim theorems about the ledger builder -/

/-- Claim C3: in the built ledger, every loan or collection row following
some row has balance equal to the previous row's balance plus its inflow
minus its outflow (the accumulator having been reset to the stored value
at each opening/manual row), and every opening or manual row is a fund
row carrying exactly that fund's stored balance, regardless of the
previous row. -/
theorem ledger_balance_continuity (funds : List Fund) (loans : List Loan)
    (collections : List Collection) :
    List.Chain'
        (fun a b => (b.type = RowType.loan ∨ b.type = RowType.collection) →
          b.balance = a.balance + b.inflow - b.outflow)
        (buildLedger funds loans collections)
      ∧ ∀ r ∈ buildLedger funds loans collections,
          (r.type = RowType.opening ∨ r.type = RowType.manual) →
            ∃ f ∈ funds, r = fundLedgerRow f ∧ r.balance = f.balance := by
  constructor
  · exact (balancePass_chain 0 (List.insertionSort ledgerLE
      (rawLedgerRows funds loans collections))).1
  · intro r hr ht
    have hmem : r ∈ List.insertionSort ledgerLE (rawLedgerRows funds loans collections) :=
      balancePass_mem_of_fundlike hr ht
    rw [List.mem_insertionSort] at hmem
    obtain ⟨f, hf, hfx⟩ := rawLedgerRows_mem_fundlike hmem ht
    exact ⟨f, hf, hfx, by rw [hfx]; rfl⟩

/-- A concrete opening fund used to witness the ledger claims. -/
def openingFund : Fund where
  id := "F1"
  date := 0
  description := "Initial Balance"
  inflow := 50000
  outflow := 0
  balance := 50000

/-- Claim C3, witness: in the ledger of a single opening fund, the opening
row carries exactly the fund's stored balance. -/
theorem ledger_balance_continuity_witness :
    ∃ f ∈ [openingFund], fundLedgerRow openingFund = fundLedgerRow f
      ∧ (fundLedgerRow openingFund).balance = f.balance := by
  refine (ledger_balance_continuity [openingFund] [] []).2 (fundLedgerRow openingFund) ?_ ?_
  · simp [buildLedger, rawLedgerRows, collectionLedgerRows, collectionDates, firstOccur,
      balancePass, fundLedgerRow, openingFund]
  · exact Or.inl rfl

theorem rowShape_id {x y : LedgerRow} (h : rowShape x = rowShape y) : x.id = y.id := by
  simp only [rowShape, Prod.mk.injEq] at h
  exact h.1

theorem rowShape_inflow {x y : LedgerRow} (h : rowShape x = rowShape y) :
    x.inflow = y.inflow := by
  simp only [rowShape, Prod.mk.injEq] at h
  exact h.2.2.2.2.1

theorem rowShape_outflow {x y : LedgerRow} (h : rowShape x = rowShape y) :
    x.outflow = y.outflow := by
  simp only [rowShape, Prod.mk.injEq] at h
  exact h.2.2.2.2.2.1

/-- A loan whose id is the empty string (falsy in the source's truthiness
filter), therefore skipped by the ledger builder. -/
def emptyIdLoan : Loan where
  id := ""
  customerName := "E"
  date := 0
  loanAmount := 100
  deduction := 0
  netGiven := 100
  dailyPay := 1
  days := 100
  totalToReceive := 100
  collected := 0
  balance := 100
  status := LoanStatus.Ongoing
  profit := 0
  isDisabled := false

/-- Claim C4 (counterexample): a non-disabled loan whose id is the empty
string produces no ledger row at all — the builder's filter also requires
a truthy id — so the ledger does not contain one loan row per loan with
falsy isDisabled. -/
theorem ledger_empty_id_counterexample :
    buildLedger [] [emptyIdLoan] [] = [] ∧ emptyIdLoan.isDisabled = false := by
  constructor
  · simp [buildLedger, rawLedgerRows, collectionLedgerRows, collectionDates, firstOccur,
      balancePass, emptyIdLoan]
  · rfl

/-- Claim C4 (amended): the ledger contains exactly one loan row (up to its
recomputed balance) per loan whose isDisabled is falsy and whose id is
truthy (non-empty) — none for disabled or empty-id loans — with inflow 0
and outflow netGiven, and the whole output is sorted ascending by the
full date-time sort key (day*24 hours, loans offset +1 hour, collections
+2 hours), ties broken by the priority tier opening(0) < manual(1) <
loan(2) < collection(3). -/
theorem ledger_loan_rows_and_sorted (funds : List Fund) (loans : List Loan)
    (collections : List Collection) :
    List.Perm
        (((buildLedger funds loans collections).filter
            (fun r => decide (r.type = RowType.loan))).map rowShape)
        ((loans.filter (fun l => decide (¬ l.id = "" ∧ l.isDisabled = false))).map
          (fun l => rowShape (loanLedgerRow l)))
      ∧ (∀ r ∈ buildLedger funds loans collections, r.type = RowType.loan →
          r.inflow = 0 ∧ ∃ l ∈ loans, ¬ l.id = "" ∧ l.isDisabled = false
            ∧ r.id = "loan-" ++ l.id ∧ r.outflow = l.netGiven)
      ∧ List.Sorted ledgerLE (buildLedger funds loans collections) := by
  refine ⟨?_, ?_, ?_⟩
  · unfold buildLedger
    rw [balancePass_filter_loan_shape]
    have h2 : ((List.insertionSort ledgerLE (rawLedgerRows funds loans collections)).filter
          (fun r => decide (r.type = RowType.loan))).Perm
        ((rawLedgerRows funds loans collections).filter
          (fun r => decide (r.type = RowType.loan))) :=
      (List.perm_insertionSort ledgerLE (rawLedgerRows funds loans collections)).filter _
    refine (h2.map rowShape).trans ?_
    rw [rawLedgerRows_filter_loan, List.map_map]
    exact List.Perm.refl _
  · intro r hr ht
    obtain ⟨y, hy, hshape⟩ := balancePass_mem_shape hr
    rw [List.mem_insertionSort] at hy
    have hyt : y.type = RowType.loan := (rowShape_type hshape) ▸ ht
    unfold rawLedgerRows at hy
    rcases List.mem_append.mp hy with hy | hy
    · rcases List.mem_append.mp hy with hy | hy
      · obtain ⟨f, _, hf⟩ := List.mem_map.mp hy
        exact absurd (hf ▸ hyt) (fundLedgerRow_type_not_loan f)
      · obtain ⟨l, hl, hly⟩ := List.mem_map.mp hy
        rcases List.mem_filter.mp hl with ⟨hlmem, hlcond⟩
        have hlcond' : ¬ l.id = "" ∧ l.isDisabled = false := by simpa using hlcond
        refine ⟨?_, l, hlmem, hlcond'.1, hlcond'.2, ?_, ?_⟩
        · rw [rowShape_inflow hshape, ← hly]
          rfl
        · rw [rowShape_id hshape, ← hly]
          rfl
        · rw [rowShape_outflow hshape, ← hly]
          rfl
    · exact absurd (collectionLedgerRows_type hy) (by rw [hyt]; simp)
  · exact balancePass_pairwise 0 _
      (List.sorted_insertionSort ledgerLE (rawLedgerRows funds loans collections))

/-- Claim C4, witness: the ledger of the single scenario loan consists of
its loan row (balance recomputed to -netGiven), whose fields satisfy the
per-row clause of the theorem. -/
theorem ledger_loan_rows_and_sorted_witness :
    ({ loanLedgerRow scenarioLoan with balance := -9500 } : LedgerRow).inflow = 0
      ∧ ∃ l ∈ [scenarioLoan], ¬ l.id = "" ∧ l.isDisabled = false
          ∧ ({ loanLedgerRow scenarioLoan with balance := -9500 } : LedgerRow).id
              = "loan-" ++ l.id
          ∧ ({ loanLedgerRow scenarioLoan with balance := -9500 } : LedgerRow).outflow
              = l.netGiven := by
  refine (ledger_loan_rows_and_sorted [] [scenarioLoan] []).2.1 _ ?_ rfl
  simp [buildLedger, rawLedgerRows, collectionLedgerRows, collectionDates, firstOccur,
    balancePass, loanLedgerRow, scenarioLoan]
